import Mathlib

/-!
Verification of the multi-provider search orchestration engine
(`src/multi_provider.rs` of the `websearch` crate).

The Rust code is shallowly embedded as pure Lean functions:

* `ProviderStats`, `MultiProviderConfig`, `SearchOptionsMulti`,
  `SearchError`, `SearchResult` mirror the corresponding Rust types
  (the raw backend payload `serde_json::Value` is modeled opaquely as an
  optional string; `f64` latency averages are modeled with exact
  rationals, faithfully capturing the recurrence the code performs).
* a provider's behavior during one invocation is an `Invocation`
  oracle: whether the tokio timeout fires first, the `Result` the
  provider's future resolves to, and the elapsed milliseconds
  (`Instant::elapsed().as_millis()` is integral).
* the `HashMap<String, ProviderStats>` is modeled as an association
  list with at most one entry per key (`lookupStats`, `updateStats`,
  `insertStats` mirror `get_mut` and `collect`/insert semantics).
* each strategy returns an `Outcome`: the returned `Result`, the final
  stats map, and the trace of provider indices invoked, in order.
* Rust's stable `Vec::sort_by(|a, b| a.provider.cmp(&b.provider))` is
  modeled by the stable `List.insertionSort` with the same comparator
  (`Option<String>` ordering: `None` first, then lexicographic).
-/

namespace Websearch

/-- Normalized search result (`SearchResult`, src/types.rs:10-26).
The raw provider payload is modeled as an opaque optional string. -/
structure SearchResult where
  url : String
  title : String
  snippet : Option String
  domain : Option String
  published_date : Option String
  provider : Option String
  raw : Option String
deriving DecidableEq

/-- Safe-search level (`SafeSearch`, src/types.rs:41-45). -/
inductive SafeSearch
  | Off
  | Moderate
  | Strict
deriving DecidableEq

/-- Sort key requested from a provider (`SortBy`, src/types.rs:59-63). -/
inductive SortBy
  | Relevance
  | LastUpdatedDate
  | SubmittedDate
deriving DecidableEq

/-- Sort direction (`SortOrder`, src/types.rs:77-80). -/
inductive SortOrder
  | Ascending
  | Descending
deriving DecidableEq

/-- Debug logging flags (`DebugOptions`, src/types.rs). Logging has no
observable effect on results or stats, so the flags are inert data. -/
structure DebugOptions where
  enabled : Bool
  log_requests : Bool
  log_responses : Bool
deriving DecidableEq

/-- Error taxonomy (`SearchError`, src/error.rs:10-50). -/
inductive SearchError
  | HttpError (message : String) (status_code : Option Nat) (response_body : Option String)
  | InvalidInput (msg : String)
  | ProviderError (msg : String)
  | ConfigError (msg : String)
  | ParseError (msg : String)
  | Timeout (timeout_ms : Nat)
  | RateLimit (msg : String)
  | AuthenticationError (msg : String)
  | Other (msg : String)
deriving DecidableEq

instance : DecidableEq (Except SearchError (List SearchResult)) := fun a b =>
  match a, b with
  | Except.ok x, Except.ok y =>
    if h : x = y then isTrue (by rw [h]) else isFalse (by intro hc; cases hc; exact h rfl)
  | Except.error x, Except.error y =>
    if h : x = y then isTrue (by rw [h]) else isFalse (by intro hc; cases hc; exact h rfl)
  | Except.ok _, Except.error _ => isFalse (by intro hc; cases hc)
  | Except.error _, Except.ok _ => isFalse (by intro hc; cases hc)

/-- Multi-provider search options (`SearchOptionsMulti`, src/multi_provider.rs:319-332). -/
structure SearchOptionsMulti where
  query : String
  id_list : Option String
  max_results : Option Nat
  language : Option String
  region : Option String
  safe_search : Option SafeSearch
  page : Option Nat
  start : Option Nat
  sort_by : Option SortBy
  sort_order : Option SortOrder
  timeout : Option Nat
  debug : Option DebugOptions
deriving DecidableEq

/-- Default options (`impl Default for SearchOptionsMulti`, src/multi_provider.rs:334-351). -/
def SearchOptionsMulti.default : SearchOptionsMulti :=
  { query := ""
    id_list := none
    max_results := some 10
    language := none
    region := none
    safe_search := none
    page := some 1
    start := none
    sort_by := none
    sort_order := none
    timeout := some 15000
    debug := none }

/-- Strategy for using multiple providers (`MultiProviderStrategy`, src/multi_provider.rs:13-22). -/
inductive MultiProviderStrategy
  | Failover
  | LoadBalance
  | Aggregate
  | RaceFirst
deriving DecidableEq

/-- A registered provider. The core only observes a provider's `name()`;
its search behavior per invocation is supplied by an `Invocation` oracle. -/
structure Provider where
  name : String
deriving DecidableEq

/-- Configuration (`MultiProviderConfig`, src/multi_provider.rs:25-30).
The per-provider timeout is in milliseconds. -/
structure MultiProviderConfig where
  providers : List Provider
  strategy : MultiProviderStrategy
  timeout_per_provider_ms : Nat
  max_concurrent : Nat
deriving DecidableEq

/-- Per-provider counters (`ProviderStats`, src/multi_provider.rs:64-71).
The `f64` rolling average is modeled with exact rational arithmetic. -/
structure ProviderStats where
  total_requests : Nat
  successful_requests : Nat
  failed_requests : Nat
  avg_response_time_ms : ℚ
deriving DecidableEq

/-- Zero-valued stats (`#[derive(Default)]` on `ProviderStats`). -/
def ProviderStats.default : ProviderStats :=
  { total_requests := 0
    successful_requests := 0
    failed_requests := 0
    avg_response_time_ms := 0 }

/-- Behavior of one provider during one invocation: whether the tokio
timeout fires before the provider's future resolves, the outcome the
future resolves to, and the elapsed wall-clock milliseconds. -/
structure Invocation where
  timedOut : Bool
  result : Except SearchError (List SearchResult)
  elapsedMs : Nat
deriving DecidableEq

/-- The stats map `HashMap<String, ProviderStats>`, as an association
list holding at most one entry per key. -/
abbrev StatsMap := List (String × ProviderStats)

/-- Key lookup (`HashMap::get` / `get_mut`). -/
def lookupStats : StatsMap → String → Option ProviderStats
  | [], _ => none
  | (k', v) :: rest, k => if k' = k then some v else lookupStats rest k

/-- Apply `f` to the entry at key `k`, if present (`get_mut` followed by
a field mutation); absent keys leave the map unchanged. -/
def updateStats : StatsMap → String → (ProviderStats → ProviderStats) → StatsMap
  | [], _, _ => []
  | (k', v) :: rest, k, f =>
    if k' = k then (k', f v) :: rest else (k', v) :: updateStats rest k f

/-- Insert-or-replace (`HashMap::insert`, as performed by `collect`). -/
def insertStats : StatsMap → String → ProviderStats → StatsMap
  | [], k, v => [(k, v)]
  | (k', v') :: rest, k, v =>
    if k' = k then (k, v) :: rest else (k', v') :: insertStats rest k v

/-- Initial stats map built by `MultiProviderSearch::new`
(src/multi_provider.rs:74-85): one zeroed entry per provider name. -/
def initStats (providers : List Provider) : StatsMap :=
  providers.foldl (fun m p => insertStats m p.name ProviderStats.default) []

/-- Sum of `total_requests` over all entries
(`self.provider_stats.values().map(|s| s.total_requests).sum()`,
src/multi_provider.rs:138). -/
def sumTotalRequests (stats : StatsMap) : Nat :=
  (stats.map fun kv => kv.2.total_requests).sum

/-- Result of one strategy execution: the value returned to the caller,
the stats map afterwards, and the provider indices invoked, in order. -/
structure Outcome where
  res : Except SearchError (List SearchResult)
  stats : StatsMap
  calls : List Nat
deriving DecidableEq

/-- The value `timeout(dur, fut).await` collapses to: the provider's own
result if the future resolves in time, otherwise a `Timeout` error
carrying the configured timeout (src/multi_provider.rs:250-279). -/
def invokeRes (tms : Nat) (inv : Invocation) : Except SearchError (List SearchResult) :=
  if inv.timedOut then Except.error (SearchError.Timeout tms) else inv.result

/-- One provider invocation with timeout and stats accounting
(`search_single_provider_by_index`, src/multi_provider.rs:236-280).
`env` assigns each provider index its behavior for this invocation; the
out-of-range fallback is unreachable from the strategy loops whenever
`env` covers the provider list. -/
def invoke (cfg : MultiProviderConfig) (env : List Invocation) (stats : StatsMap)
    (i : Nat) : Outcome :=
  match cfg.providers[i]?, env[i]? with
  | some p, some inv =>
    let stats1 := updateStats stats p.name fun s =>
      { s with total_requests := s.total_requests + 1 }
    let resolved : Option (Except SearchError (List SearchResult)) :=
      if inv.timedOut then none else some inv.result
    let stats2 := updateStats stats1 p.name fun s =>
      match resolved with
      | some (Except.ok _) =>
        let n := s.successful_requests + 1
        { s with
            successful_requests := n
            avg_response_time_ms :=
              (s.avg_response_time_ms * (((n - 1 : Nat)) : ℚ) + ((inv.elapsedMs : Nat) : ℚ))
                / ((n : Nat) : ℚ) }
      | _ => { s with failed_requests := s.failed_requests + 1 }
    match resolved with
    | some r => { res := r, stats := stats2, calls := [i] }
    | none =>
      { res := Except.error (SearchError.Timeout cfg.timeout_per_provider_ms)
        stats := stats2
        calls := [i] }
  | _, _ =>
    { res := Except.error (SearchError.Other "index out of range")
      stats := stats
      calls := [i] }

/-- Failover loop body (`search_failover`, src/multi_provider.rs:98-126):
try the given indices in order, returning the first success, threading
the last error through. -/
def failoverGo (cfg : MultiProviderConfig) (env : List Invocation) :
    List Nat → StatsMap → SearchError → Outcome
  | [], stats, lastError => { res := Except.error lastError, stats := stats, calls := [] }
  | i :: rest, stats, lastError =>
    let o := invoke cfg env stats i
    match o.res with
    | Except.ok results => { res := Except.ok results, stats := o.stats, calls := o.calls }
    | Except.error e =>
      let o2 := failoverGo cfg env rest o.stats e
      { res := o2.res, stats := o2.stats, calls := o.calls ++ o2.calls }

/-- Failover strategy (`search_failover`): indices `0..len` in order,
with initial last error "No providers configured". -/
def searchFailover (cfg : MultiProviderConfig) (opts : SearchOptionsMulti)
    (env : List Invocation) (stats : StatsMap) : Outcome :=
  failoverGo cfg env (List.range cfg.providers.length) stats
    (SearchError.Other "No providers configured")

/-- LoadBalance strategy (`search_load_balance`, src/multi_provider.rs:129-146):
round-robin on the sum of `total_requests`, invoking exactly one provider. -/
def searchLoadBalance (cfg : MultiProviderConfig) (opts : SearchOptionsMulti)
    (env : List Invocation) (stats : StatsMap) : Outcome :=
  if cfg.providers.isEmpty then
    { res := Except.error (SearchError.Other "No providers configured")
      stats := stats
      calls := [] }
  else
    invoke cfg env stats (sumTotalRequests stats % cfg.providers.length)

/-- Aggregate loop body (`search_aggregate`, src/multi_provider.rs:155-170):
invoke every index, concatenating successful result lists in order and
silently dropping failures. -/
def aggregateGo (cfg : MultiProviderConfig) (env : List Invocation) :
    List Nat → StatsMap → List SearchResult × StatsMap × List Nat
  | [], stats => ([], stats, [])
  | i :: rest, stats =>
    let o := invoke cfg env stats i
    let t := aggregateGo cfg env rest o.stats
    match o.res with
    | Except.ok rs => (rs ++ t.1, t.2.1, o.calls ++ t.2.2)
    | Except.error _ => (t.1, t.2.1, o.calls ++ t.2.2)

/-- Lexicographic order on character lists. Rust's `String::cmp`
compares UTF-8 bytes lexicographically, which coincides with
code-point lexicographic order, modeled here on the string's
character list. -/
def charListLeB : List Char → List Char → Bool
  | [], _ => true
  | _ :: _, [] => false
  | a :: as, b :: bs =>
    if a < b then true
    else if b < a then false
    else charListLeB as bs

/-- Comparator used by the aggregate sort:
`a.provider.cmp(&b.provider)` on `Option<String>` — `None` sorts before
`Some`, and strings compare lexicographically. -/
def optStrLeB : Option String → Option String → Bool
  | none, _ => true
  | some _, none => false
  | some a, some b => charListLeB a.data b.data

/-- The sort relation on results: ascending by provider name, results
with no provider name first (src/multi_provider.rs:187-190). -/
def resLe (a b : SearchResult) : Prop :=
  optStrLeB a.provider b.provider = true

instance : DecidableRel resLe := fun a b =>
  inferInstanceAs (Decidable (optStrLeB a.provider b.provider = true))

/-- Truncation to the optional result cap
(`merged_results.truncate(max_results)`, src/multi_provider.rs:193-195). -/
def truncOpt (cap : Option Nat) (l : List SearchResult) : List SearchResult :=
  match cap with
  | some m => l.take m
  | none => l

/-- Aggregate strategy (`search_aggregate`, src/multi_provider.rs:149-198):
merge all successes; if the merged list is empty fail with
"All providers failed"; otherwise stable-sort by provider name and
truncate to `max_results`. -/
def searchAggregate (cfg : MultiProviderConfig) (opts : SearchOptionsMulti)
    (env : List Invocation) (stats : StatsMap) : Outcome :=
  let t := aggregateGo cfg env (List.range cfg.providers.length) stats
  if t.1.isEmpty then
    { res := Except.error (SearchError.Other "All providers failed")
      stats := t.2.1
      calls := t.2.2 }
  else
    { res := Except.ok (truncOpt opts.max_results (List.insertionSort resLe t.1))
      stats := t.2.1
      calls := t.2.2 }

/-- Race loop body (`search_race_first`, src/multi_provider.rs:213-228):
sequentially try indices until the first success, discarding errors. -/
def raceGo (cfg : MultiProviderConfig) (env : List Invocation) :
    List Nat → StatsMap → Outcome
  | [], stats =>
    { res := Except.error (SearchError.Other "All providers in race failed")
      stats := stats
      calls := [] }
  | i :: rest, stats =>
    let o := invoke cfg env stats i
    match o.res with
    | Except.ok results => { res := Except.ok results, stats := o.stats, calls := o.calls }
    | Except.error _ =>
      let o2 := raceGo cfg env rest o.stats
      { res := o2.res, stats := o2.stats, calls := o.calls ++ o2.calls }

/-- Race strategy (`search_race_first`, src/multi_provider.rs:201-233). -/
def searchRaceFirst (cfg : MultiProviderConfig) (opts : SearchOptionsMulti)
    (env : List Invocation) (stats : StatsMap) : Outcome :=
  if cfg.providers.isEmpty then
    { res := Except.error (SearchError.Other "No providers configured")
      stats := stats
      calls := [] }
  else
    raceGo cfg env (List.range cfg.providers.length) stats

/-- Strategy dispatcher (`MultiProviderSearch::search`, src/multi_provider.rs:88-95). -/
def MultiProviderSearch.search (cfg : MultiProviderConfig) (opts : SearchOptionsMulti)
    (env : List Invocation) (stats : StatsMap) : Outcome :=
  match cfg.strategy with
  | MultiProviderStrategy.Failover => searchFailover cfg opts env stats
  | MultiProviderStrategy.LoadBalance => searchLoadBalance cfg opts env stats
  | MultiProviderStrategy.Aggregate => searchAggregate cfg opts env stats
  | MultiProviderStrategy.RaceFirst => searchRaceFirst cfg opts env stats

/-- The value `invoke` returns to the strategy at index `i`, which is
independent of the stats map. -/
def invokeResAt (cfg : MultiProviderConfig) (env : List Invocation) (i : Nat) :
    Except SearchError (List SearchResult) :=
  match cfg.providers[i]?, env[i]? with
  | some _, some inv => invokeRes cfg.timeout_per_provider_ms inv
  | _, _ => Except.error (SearchError.Other "index out of range")

/-- The results contributed by index `i` to the aggregate merge: the
provider's list on success, nothing on failure. -/
def okResultsAt (cfg : MultiProviderConfig) (env : List Invocation) (i : Nat) :
    List SearchResult :=
  match invokeResAt cfg env i with
  | Except.ok rs => rs
  | Except.error _ => []

/-- Concatenation, in index order, of the successful providers' result
lists: the merged list the aggregate loop builds. -/
def aggConcat (cfg : MultiProviderConfig) (env : List Invocation) (idxs : List Nat) :
    List SearchResult :=
  (idxs.map (okResultsAt cfg env)).flatten

/-- The per-entry stats update performed by one invocation whose behavior
is `inv`: `total_requests` always increments; on success
`successful_requests` increments and the rolling mean is updated with the
post-increment count; on any failure (timeout included)
`failed_requests` increments. -/
def statsAfter (tms : Nat) (inv : Invocation) (s : ProviderStats) : ProviderStats :=
  match invokeRes tms inv with
  | Except.ok _ =>
    { s with
        total_requests := s.total_requests + 1
        successful_requests := s.successful_requests + 1
        avg_response_time_ms :=
          (s.avg_response_time_ms * ((s.successful_requests : Nat) : ℚ)
            + ((inv.elapsedMs : Nat) : ℚ)) / (((s.successful_requests + 1 : Nat)) : ℚ) }
  | Except.error _ =>
    { s with
        total_requests := s.total_requests + 1
        failed_requests := s.failed_requests + 1 }

/-- `N` consecutive `search` calls on the same orchestrator under the
LoadBalance strategy; each call's provider behaviors are supplied per
call. Returns the per-call invocation traces, in order, and the final
stats map. -/
def loadBalanceRun (cfg : MultiProviderConfig) (opts : SearchOptionsMulti) :
    List (List Invocation) → StatsMap → List (List Nat) × StatsMap
  | [], stats => ([], stats)
  | env :: rest, stats =>
    let o := searchLoadBalance cfg opts env stats
    let t := loadBalanceRun cfg opts rest o.stats
    (o.calls :: t.1, t.2)

/-- Configuration builder used for concrete evaluations
(`MultiProviderConfig::new` + `add_provider` + `with_timeout`);
`max_concurrent` keeps its default of 3. -/
def mkCfg (ps : List Provider) (strat : MultiProviderStrategy) (tms : Nat) :
    MultiProviderConfig :=
  { providers := ps, strategy := strat, timeout_per_provider_ms := tms, max_concurrent := 3 }

/-- A sample normalized result attributed to the named provider. -/
def sampleResult (nm url : String) : SearchResult :=
  { url := url, title := nm, snippet := none, domain := none,
    published_date := none, provider := some nm, raw := none }

/-- An invocation that resolves within the deadline with the given outcome. -/
def doneInv (r : Except SearchError (List SearchResult)) (ms : Nat) : Invocation :=
  { timedOut := false, result := r, elapsedMs := ms }

/-- An invocation on which the per-provider deadline fires first; the
provider's eventual outcome `r` is discarded by the timed invoker. -/
def lateInv (r : Except SearchError (List SearchResult)) (ms : Nat) : Invocation :=
  { timedOut := true, result := r, elapsedMs := ms }

/-! ### Stats-map lemmas -/

theorem lookupStats_updateStats_self (m : StatsMap) (k : String)
    (f : ProviderStats → ProviderStats) :
    lookupStats (updateStats m k f) k = (lookupStats m k).map f := by
  induction m with
  | nil => rfl
  | cons kv rest ih =>
    obtain ⟨k', v⟩ := kv
    by_cases h : k' = k
    · simp [updateStats, lookupStats, h]
    · simp [updateStats, lookupStats, h, ih]

theorem lookupStats_updateStats_ne (m : StatsMap) (k k' : String)
    (f : ProviderStats → ProviderStats) (h : k' ≠ k) :
    lookupStats (updateStats m k f) k' = lookupStats m k' := by
  induction m with
  | nil => rfl
  | cons kv rest ih =>
    obtain ⟨k₀, v⟩ := kv
    by_cases h0 : k₀ = k
    · subst h0
      simp only [updateStats, if_pos rfl, lookupStats]
      rw [if_neg (fun hc => h hc.symm), if_neg (fun hc => h hc.symm)]
    · simp only [updateStats, if_neg h0, lookupStats]
      by_cases h1 : k₀ = k'
      · simp [h1]
      · simp [h1, ih]

theorem updateStats_updateStats (m : StatsMap) (k : String)
    (f g : ProviderStats → ProviderStats) :
    updateStats (updateStats m k f) k g = updateStats m k (fun s => g (f s)) := by
  induction m with
  | nil => rfl
  | cons kv rest ih =>
    obtain ⟨k', v⟩ := kv
    by_cases h : k' = k
    · simp [updateStats, h]
    · simp [updateStats, h, ih]

theorem updateStats_congr (m : StatsMap) (k : String)
    (f g : ProviderStats → ProviderStats) (h : ∀ s, f s = g s) :
    updateStats m k f = updateStats m k g := by
  induction m with
  | nil => rfl
  | cons kv rest ih =>
    obtain ⟨k', v⟩ := kv
    by_cases h0 : k' = k
    · simp [updateStats, h0, h v]
    · simp [updateStats, h0, ih]

theorem sumTotalRequests_updateStats (m : StatsMap) (k : String)
    (f : ProviderStats → ProviderStats) (s0 : ProviderStats)
    (h : lookupStats m k = some s0) :
    sumTotalRequests (updateStats m k f) + s0.total_requests
      = sumTotalRequests m + (f s0).total_requests := by
  induction m with
  | nil => simp [lookupStats] at h
  | cons kv rest ih =>
    obtain ⟨k', v⟩ := kv
    by_cases h0 : k' = k
    · simp only [lookupStats, if_pos h0] at h
      cases h
      simp [updateStats, if_pos h0, sumTotalRequests]
      omega
    · simp only [lookupStats, if_neg h0] at h
      have := ih h
      simp only [updateStats, if_neg h0, sumTotalRequests, List.map_cons, List.sum_cons]
      simp only [sumTotalRequests] at this
      omega

theorem lookupStats_isSome_updateStats (m : StatsMap) (k k' : String)
    (f : ProviderStats → ProviderStats) :
    (lookupStats (updateStats m k f) k').isSome = (lookupStats m k').isSome := by
  by_cases h : k' = k
  · subst h
    rw [lookupStats_updateStats_self]
    cases lookupStats m k' <;> rfl
  · rw [lookupStats_updateStats_ne m k k' f h]

theorem lookupStats_insertStats_self (m : StatsMap) (k : String) (v : ProviderStats) :
    lookupStats (insertStats m k v) k = some v := by
  induction m with
  | nil => simp [insertStats, lookupStats]
  | cons kv rest ih =>
    obtain ⟨k', v'⟩ := kv
    by_cases h : k' = k
    · simp [insertStats, h, lookupStats]
    · simp [insertStats, h, lookupStats, ih]

theorem lookupStats_insertStats_ne (m : StatsMap) (k k' : String) (v : ProviderStats)
    (h : k' ≠ k) :
    lookupStats (insertStats m k v) k' = lookupStats m k' := by
  induction m with
  | nil =>
    simp only [insertStats, lookupStats]
    rw [if_neg (fun hc => h hc.symm)]
  | cons kv rest ih =>
    obtain ⟨k₀, v₀⟩ := kv
    by_cases h0 : k₀ = k
    · subst h0
      simp only [insertStats, if_pos rfl, lookupStats]
      rw [if_neg (fun hc => h hc.symm), if_neg (fun hc => h hc.symm)]
    · simp only [insertStats, if_neg h0, lookupStats]
      by_cases h1 : k₀ = k'
      · simp [h1]
      · simp [h1, ih]

theorem mem_insertStats (m : StatsMap) (k : String) (v : ProviderStats)
    (kv : String × ProviderStats) (h : kv ∈ insertStats m k v) :
    kv ∈ m ∨ kv = (k, v) := by
  induction m with
  | nil =>
    simp [insertStats] at h
    exact Or.inr h
  | cons kv0 rest ih =>
    obtain ⟨k₀, v₀⟩ := kv0
    by_cases h0 : k₀ = k
    · simp only [insertStats, if_pos h0] at h
      rcases List.mem_cons.mp h with h1 | h1
      · exact Or.inr h1
      · exact Or.inl (List.mem_cons_of_mem _ h1)
    · simp only [insertStats, if_neg h0] at h
      rcases List.mem_cons.mp h with h1 | h1
      · exact Or.inl (List.mem_cons.mpr (Or.inl h1))
      · rcases ih h1 with h2 | h2
        · exact Or.inl (List.mem_cons_of_mem _ h2)
        · exact Or.inr h2

theorem foldl_insertStats_default_values (providers : List Provider) :
    ∀ (m : StatsMap), (∀ kv ∈ m, kv.2 = ProviderStats.default) →
      ∀ kv ∈ providers.foldl (fun m p => insertStats m p.name ProviderStats.default) m,
        kv.2 = ProviderStats.default := by
  induction providers with
  | nil => intro m hm kv h'; exact hm kv h'
  | cons p rest ih =>
    intro m hm kv h'
    refine ih (insertStats m p.name ProviderStats.default) ?_ kv h'
    intro kv' h''
    rcases mem_insertStats m p.name ProviderStats.default kv' h'' with h1 | h1
    · exact hm kv' h1
    · rw [h1]

theorem initStats_values_default (providers : List Provider) (kv : String × ProviderStats)
    (h : kv ∈ initStats providers) : kv.2 = ProviderStats.default :=
  foldl_insertStats_default_values providers []
    (by intro kv' hc; exact absurd hc (List.not_mem_nil kv')) kv h

theorem sumTotalRequests_eq_zero (m : StatsMap)
    (h : ∀ kv ∈ m, kv.2.total_requests = 0) : sumTotalRequests m = 0 := by
  induction m with
  | nil => rfl
  | cons kv rest ih =>
    have h0 := h kv (List.mem_cons_self _ _)
    have h1 := ih (fun kv' h' => h kv' (List.mem_cons_of_mem _ h'))
    simp only [sumTotalRequests, List.map_cons, List.sum_cons] at h1 ⊢
    omega

theorem sumTotalRequests_initStats (providers : List Provider) :
    sumTotalRequests (initStats providers) = 0 := by
  refine sumTotalRequests_eq_zero _ ?_
  intro kv hkv
  rw [initStats_values_default providers kv hkv]
  rfl

theorem foldl_insertStats_default_isSome (providers : List Provider) (p : Provider) :
    ∀ (m : StatsMap), (p ∈ providers ∨ (lookupStats m p.name).isSome = true) →
      (lookupStats (providers.foldl (fun m q => insertStats m q.name ProviderStats.default) m)
        p.name).isSome = true := by
  induction providers with
  | nil =>
    intro m hm
    rcases hm with h | h
    · exact absurd h (List.not_mem_nil p)
    · exact h
  | cons q rest ih =>
    intro m hm
    refine ih (insertStats m q.name ProviderStats.default) ?_
    by_cases hq : p.name = q.name
    · right
      rw [hq, lookupStats_insertStats_self]
      rfl
    · rcases hm with h | h
      · rcases List.mem_cons.mp h with h1 | h1
        · exact absurd (congrArg Provider.name h1) hq
        · exact Or.inl h1
      · right
        rw [lookupStats_insertStats_ne m q.name p.name ProviderStats.default hq]
        exact h

theorem lookupStats_initStats_isSome (providers : List Provider) (p : Provider)
    (hp : p ∈ providers) : (lookupStats (initStats providers) p.name).isSome = true :=
  foldl_insertStats_default_isSome providers p [] (Or.inl hp)

/-! ### Invocation lemmas -/

theorem statsAfter_total (tms : Nat) (inv : Invocation) (s : ProviderStats) :
    (statsAfter tms inv s).total_requests = s.total_requests + 1 := by
  unfold statsAfter
  rcases invokeRes tms inv with rs | e <;> rfl

theorem invoke_res (cfg : MultiProviderConfig) (env : List Invocation) (stats : StatsMap)
    (i : Nat) : (invoke cfg env stats i).res = invokeResAt cfg env i := by
  unfold invoke invokeResAt
  rcases hp : cfg.providers[i]? with _ | p
  · rcases he : env[i]? with _ | inv <;> simp only [hp, he]
  · rcases he : env[i]? with _ | inv
    · simp only [hp, he]
    · simp only [hp, he]
      rcases ht : inv.timedOut
      · simp [invokeRes, ht]
      · simp [invokeRes, ht]

theorem invoke_calls (cfg : MultiProviderConfig) (env : List Invocation) (stats : StatsMap)
    (i : Nat) : (invoke cfg env stats i).calls = [i] := by
  unfold invoke
  rcases hp : cfg.providers[i]? with _ | p
  · rcases he : env[i]? with _ | inv <;> simp only [hp, he]
  · rcases he : env[i]? with _ | inv
    · simp only [hp, he]
    · simp only [hp, he]
      rcases ht : inv.timedOut
      · simp [ht]
      · simp [ht]

theorem invoke_stats_eq (cfg : MultiProviderConfig) (env : List Invocation)
    (stats : StatsMap) (i : Nat) (p : Provider) (inv : Invocation)
    (hp : cfg.providers[i]? = some p) (he : env[i]? = some inv) :
    (invoke cfg env stats i).stats
      = updateStats stats p.name (statsAfter cfg.timeout_per_provider_ms inv) := by
  unfold invoke
  simp only [hp, he]
  rcases ht : inv.timedOut
  · rcases hr : inv.result with e | rs
    · simp only [ht, hr, Bool.false_eq_true, if_false]
      rw [updateStats_updateStats]
      refine updateStats_congr _ _ _ _ ?_
      intro s
      unfold statsAfter invokeRes
      rw [ht, hr]
      rfl
    · simp only [ht, hr, Bool.false_eq_true, if_false]
      rw [updateStats_updateStats]
      refine updateStats_congr _ _ _ _ ?_
      intro s
      unfold statsAfter invokeRes
      rw [ht, hr]
      rfl
  · simp only [ht, if_true]
    rw [updateStats_updateStats]
    refine updateStats_congr _ _ _ _ ?_
    intro s
    unfold statsAfter invokeRes
    rw [ht]
    rfl

theorem invoke_stats_lookup_self (cfg : MultiProviderConfig) (env : List Invocation)
    (stats : StatsMap) (i : Nat) (p : Provider) (inv : Invocation) (s : ProviderStats)
    (hp : cfg.providers[i]? = some p) (he : env[i]? = some inv)
    (hs : lookupStats stats p.name = some s) :
    lookupStats (invoke cfg env stats i).stats p.name
      = some (statsAfter cfg.timeout_per_provider_ms inv s) := by
  rw [invoke_stats_eq cfg env stats i p inv hp he, lookupStats_updateStats_self, hs]
  rfl

theorem invoke_stats_lookup_ne (cfg : MultiProviderConfig) (env : List Invocation)
    (stats : StatsMap) (i : Nat) (p : Provider) (inv : Invocation) (k : String)
    (hp : cfg.providers[i]? = some p) (he : env[i]? = some inv) (hk : k ≠ p.name) :
    lookupStats (invoke cfg env stats i).stats k = lookupStats stats k := by
  rw [invoke_stats_eq cfg env stats i p inv hp he, lookupStats_updateStats_ne _ _ _ _ hk]

theorem invoke_sumTotal (cfg : MultiProviderConfig) (env : List Invocation)
    (stats : StatsMap) (i : Nat) (p : Provider) (inv : Invocation) (s : ProviderStats)
    (hp : cfg.providers[i]? = some p) (he : env[i]? = some inv)
    (hs : lookupStats stats p.name = some s) :
    sumTotalRequests (invoke cfg env stats i).stats = sumTotalRequests stats + 1 := by
  rw [invoke_stats_eq cfg env stats i p inv hp he]
  have h := sumTotalRequests_updateStats stats p.name
    (statsAfter cfg.timeout_per_provider_ms inv) s hs
  rw [statsAfter_total] at h
  omega

theorem invoke_stats_isSome (cfg : MultiProviderConfig) (env : List Invocation)
    (stats : StatsMap) (i : Nat) (p : Provider) (inv : Invocation) (k : String)
    (hp : cfg.providers[i]? = some p) (he : env[i]? = some inv) :
    (lookupStats (invoke cfg env stats i).stats k).isSome = (lookupStats stats k).isSome := by
  rw [invoke_stats_eq cfg env stats i p inv hp he, lookupStats_isSome_updateStats]

/-! ### Strategy-loop lemmas -/

theorem failoverGo_cons_ok (cfg : MultiProviderConfig) (env : List Invocation)
    (i : Nat) (rest : List Nat) (stats : StatsMap) (e0 : SearchError)
    (rs : List SearchResult) (h : invokeResAt cfg env i = Except.ok rs) :
    failoverGo cfg env (i :: rest) stats e0 =
      { res := Except.ok rs, stats := (invoke cfg env stats i).stats, calls := [i] } := by
  have hres : (invoke cfg env stats i).res = Except.ok rs := by
    rw [invoke_res]; exact h
  unfold failoverGo
  simp only [hres, invoke_calls]

theorem failoverGo_cons_err (cfg : MultiProviderConfig) (env : List Invocation)
    (i : Nat) (rest : List Nat) (stats : StatsMap) (e0 : SearchError)
    (e : SearchError) (h : invokeResAt cfg env i = Except.error e) :
    failoverGo cfg env (i :: rest) stats e0 =
      { res := (failoverGo cfg env rest (invoke cfg env stats i).stats e).res,
        stats := (failoverGo cfg env rest (invoke cfg env stats i).stats e).stats,
        calls := i :: (failoverGo cfg env rest (invoke cfg env stats i).stats e).calls } := by
  have hres : (invoke cfg env stats i).res = Except.error e := by
    rw [invoke_res]; exact h
  conv_lhs => unfold failoverGo
  simp only [hres, invoke_calls, List.singleton_append]

theorem raceGo_cons_ok (cfg : MultiProviderConfig) (env : List Invocation)
    (i : Nat) (rest : List Nat) (stats : StatsMap)
    (rs : List SearchResult) (h : invokeResAt cfg env i = Except.ok rs) :
    raceGo cfg env (i :: rest) stats =
      { res := Except.ok rs, stats := (invoke cfg env stats i).stats, calls := [i] } := by
  have hres : (invoke cfg env stats i).res = Except.ok rs := by
    rw [invoke_res]; exact h
  unfold raceGo
  simp only [hres, invoke_calls]

theorem raceGo_cons_err (cfg : MultiProviderConfig) (env : List Invocation)
    (i : Nat) (rest : List Nat) (stats : StatsMap)
    (e : SearchError) (h : invokeResAt cfg env i = Except.error e) :
    raceGo cfg env (i :: rest) stats =
      { res := (raceGo cfg env rest (invoke cfg env stats i).stats).res,
        stats := (raceGo cfg env rest (invoke cfg env stats i).stats).stats,
        calls := i :: (raceGo cfg env rest (invoke cfg env stats i).stats).calls } := by
  have hres : (invoke cfg env stats i).res = Except.error e := by
    rw [invoke_res]; exact h
  conv_lhs => unfold raceGo
  simp only [hres, invoke_calls, List.singleton_append]

theorem failoverGo_first_success (cfg : MultiProviderConfig) (env : List Invocation)
    (rs : List SearchResult) :
    ∀ (n s k : Nat) (stats : StatsMap) (e0 : SearchError),
      s ≤ k → k < s + n →
      (∀ j, s ≤ j → j < k → ∃ e, invokeResAt cfg env j = Except.error e) →
      invokeResAt cfg env k = Except.ok rs →
      (failoverGo cfg env (List.range' s n) stats e0).res = Except.ok rs ∧
      (failoverGo cfg env (List.range' s n) stats e0).calls = List.range' s (k - s + 1) := by
  intro n
  induction n with
  | zero => intro s k stats e0 h1 h2 _ _; omega
  | succ n ih =>
    intro s k stats e0 h1 h2 hfail hk
    rw [List.range'_succ]
    by_cases hsk : k = s
    · subst hsk
      rw [failoverGo_cons_ok cfg env k _ stats e0 rs hk]
      refine ⟨rfl, ?_⟩
      have : k - k + 1 = 1 := by omega
      rw [this, List.range'_succ]
      rfl
    · have hs : s < k := Nat.lt_of_le_of_ne h1 (fun h => hsk h.symm)
      obtain ⟨e, he⟩ := hfail s (Nat.le_refl s) hs
      rw [failoverGo_cons_err cfg env s _ stats e0 e he]
      obtain ⟨hres, hcalls⟩ := ih (s + 1) k (invoke cfg env stats s).stats e
        (by omega) (by omega) (fun j hj1 hj2 => hfail j (by omega) hj2) hk
      refine ⟨hres, ?_⟩
      show s :: _ = _
      rw [hcalls]
      have h3 : k - s + 1 = (k - (s + 1) + 1) + 1 := by omega
      conv_rhs => rw [h3, List.range'_succ]

theorem failoverGo_all_fail (cfg : MultiProviderConfig) (env : List Invocation) :
    ∀ (idxs : List Nat) (stats : StatsMap) (e0 : SearchError),
      (∀ i ∈ idxs, ∃ e, invokeResAt cfg env i = Except.error e) →
      (failoverGo cfg env idxs stats e0).calls = idxs ∧
      (idxs = [] → (failoverGo cfg env idxs stats e0).res = Except.error e0) ∧
      (∀ j e', idxs.getLast? = some j → invokeResAt cfg env j = Except.error e' →
        (failoverGo cfg env idxs stats e0).res = Except.error e') := by
  intro idxs
  induction idxs with
  | nil =>
    intro stats e0 _
    refine ⟨rfl, fun _ => rfl, ?_⟩
    intro j e' hj
    simp [List.getLast?] at hj
  | cons i rest ih =>
    intro stats e0 hfail
    obtain ⟨e, he⟩ := hfail i (List.mem_cons_self _ _)
    rw [failoverGo_cons_err cfg env i rest stats e0 e he]
    have hrest := ih (invoke cfg env stats i).stats e
      (fun j hj => hfail j (List.mem_cons_of_mem _ hj))
    refine ⟨by rw [hrest.1], fun hc => absurd hc (by simp), ?_⟩
    intro j e' hj he'
    cases rest with
    | nil =>
      simp only [List.getLast?_singleton, Option.some.injEq] at hj
      subst hj
      have : e = e' := by
        rw [he] at he'
        exact (Except.error.injEq _ _).mp he'
      subst this
      exact hrest.2.1 rfl
    | cons r rest' =>
      rw [List.getLast?_cons_cons] at hj
      exact hrest.2.2 j e' hj he'

theorem raceGo_all_fail (cfg : MultiProviderConfig) (env : List Invocation) :
    ∀ (idxs : List Nat) (stats : StatsMap),
      (∀ i ∈ idxs, ∃ e, invokeResAt cfg env i = Except.error e) →
      (raceGo cfg env idxs stats).calls = idxs ∧
      (raceGo cfg env idxs stats).res
        = Except.error (SearchError.Other "All providers in race failed") := by
  intro idxs
  induction idxs with
  | nil => intro stats _; exact ⟨rfl, rfl⟩
  | cons i rest ih =>
    intro stats hfail
    obtain ⟨e, he⟩ := hfail i (List.mem_cons_self _ _)
    rw [raceGo_cons_err cfg env i rest stats e he]
    have hrest := ih (invoke cfg env stats i).stats
      (fun j hj => hfail j (List.mem_cons_of_mem _ hj))
    exact ⟨by rw [hrest.1], hrest.2⟩

theorem raceGo_failoverGo_equiv (cfg : MultiProviderConfig) (env : List Invocation) :
    ∀ (idxs : List Nat) (stats : StatsMap) (e0 : SearchError),
      (raceGo cfg env idxs stats).stats = (failoverGo cfg env idxs stats e0).stats ∧
      (raceGo cfg env idxs stats).calls = (failoverGo cfg env idxs stats e0).calls ∧
      ∀ rs, (raceGo cfg env idxs stats).res = Except.ok rs ↔
            (failoverGo cfg env idxs stats e0).res = Except.ok rs := by
  intro idxs
  induction idxs with
  | nil =>
    intro stats e0
    refine ⟨rfl, rfl, ?_⟩
    intro rs
    unfold raceGo failoverGo
    constructor
    · intro h; cases h
    · intro h; cases h
  | cons i rest ih =>
    intro stats e0
    rcases h : invokeResAt cfg env i with e | rs0
    · rw [raceGo_cons_err cfg env i rest stats e h,
        failoverGo_cons_err cfg env i rest stats e0 e h]
      obtain ⟨h1, h2, h3⟩ := ih (invoke cfg env stats i).stats e
      exact ⟨h1, by rw [h2], h3⟩
    · rw [raceGo_cons_ok cfg env i rest stats rs0 h,
        failoverGo_cons_ok cfg env i rest stats e0 rs0 h]
      exact ⟨rfl, rfl, fun rs => Iff.rfl⟩

theorem aggregateGo_cons_ok (cfg : MultiProviderConfig) (env : List Invocation)
    (i : Nat) (rest : List Nat) (stats : StatsMap)
    (rs : List SearchResult) (h : invokeResAt cfg env i = Except.ok rs) :
    aggregateGo cfg env (i :: rest) stats =
      (rs ++ (aggregateGo cfg env rest (invoke cfg env stats i).stats).1,
       (aggregateGo cfg env rest (invoke cfg env stats i).stats).2.1,
       i :: (aggregateGo cfg env rest (invoke cfg env stats i).stats).2.2) := by
  have hres : (invoke cfg env stats i).res = Except.ok rs := by
    rw [invoke_res]; exact h
  conv_lhs => unfold aggregateGo
  simp only [hres, invoke_calls, List.singleton_append]

theorem aggregateGo_cons_err (cfg : MultiProviderConfig) (env : List Invocation)
    (i : Nat) (rest : List Nat) (stats : StatsMap)
    (e : SearchError) (h : invokeResAt cfg env i = Except.error e) :
    aggregateGo cfg env (i :: rest) stats =
      ((aggregateGo cfg env rest (invoke cfg env stats i).stats).1,
       (aggregateGo cfg env rest (invoke cfg env stats i).stats).2.1,
       i :: (aggregateGo cfg env rest (invoke cfg env stats i).stats).2.2) := by
  have hres : (invoke cfg env stats i).res = Except.error e := by
    rw [invoke_res]; exact h
  conv_lhs => unfold aggregateGo
  simp only [hres, invoke_calls, List.singleton_append]

theorem aggregateGo_spec (cfg : MultiProviderConfig) (env : List Invocation) :
    ∀ (idxs : List Nat) (stats : StatsMap),
      (aggregateGo cfg env idxs stats).1 = aggConcat cfg env idxs ∧
      (aggregateGo cfg env idxs stats).2.2 = idxs := by
  intro idxs
  induction idxs with
  | nil => intro stats; exact ⟨rfl, rfl⟩
  | cons i rest ih =>
    intro stats
    rcases h : invokeResAt cfg env i with e | rs
    · rw [aggregateGo_cons_err cfg env i rest stats e h]
      obtain ⟨h1, h2⟩ := ih (invoke cfg env stats i).stats
      constructor
      · rw [h1]
        show aggConcat cfg env rest = aggConcat cfg env (i :: rest)
        unfold aggConcat okResultsAt
        rw [List.map_cons, List.flatten_cons, h]
        rfl
      · rw [h2]
    · rw [aggregateGo_cons_ok cfg env i rest stats rs h]
      obtain ⟨h1, h2⟩ := ih (invoke cfg env stats i).stats
      constructor
      · rw [h1]
        show rs ++ aggConcat cfg env rest = aggConcat cfg env (i :: rest)
        unfold aggConcat okResultsAt
        rw [List.map_cons, List.flatten_cons, h]
      · rw [h2]

/-! ### Sort comparator lemmas -/

theorem charListLeB_refl : ∀ x : List Char, charListLeB x x = true
  | [] => rfl
  | a :: as => by
    simp only [charListLeB]
    rw [if_neg (lt_irrefl a), if_neg (lt_irrefl a)]
    exact charListLeB_refl as

theorem charListLeB_total : ∀ x y : List Char,
    charListLeB x y = true ∨ charListLeB y x = true
  | [], _ => Or.inl rfl
  | _ :: _, [] => Or.inr rfl
  | a :: as, b :: bs => by
    rcases lt_trichotomy a b with h | h | h
    · left
      simp only [charListLeB]
      rw [if_pos h]
    · subst h
      rcases charListLeB_total as bs with h2 | h2
      · left
        simp only [charListLeB]
        rw [if_neg (lt_irrefl a), if_neg (lt_irrefl a)]
        exact h2
      · right
        simp only [charListLeB]
        rw [if_neg (lt_irrefl a), if_neg (lt_irrefl a)]
        exact h2
    · right
      simp only [charListLeB]
      rw [if_pos h]

theorem charListLeB_trans : ∀ x y z : List Char,
    charListLeB x y = true → charListLeB y z = true → charListLeB x z = true
  | [], _, _, _, _ => rfl
  | _ :: _, [], _, h1, _ => absurd h1 Bool.false_ne_true
  | _ :: _, _ :: _, [], _, h2 => absurd h2 Bool.false_ne_true
  | a :: as, b :: bs, c :: cs, h1, h2 => by
    simp only [charListLeB] at h1 h2 ⊢
    rcases lt_trichotomy a b with hab | hab | hab
    · rcases lt_trichotomy b c with hbc | hbc | hbc
      · rw [if_pos (lt_trans hab hbc)]
      · subst hbc
        rw [if_pos hab]
      · rw [if_neg (asymm hbc), if_pos hbc] at h2
        exact absurd h2 Bool.false_ne_true
    · subst hab
      rcases lt_trichotomy a c with hac | hac | hac
      · rw [if_pos hac]
      · subst hac
        rw [if_neg (lt_irrefl a), if_neg (lt_irrefl a)] at h1 h2 ⊢
        exact charListLeB_trans as bs cs h1 h2
      · rw [if_neg (asymm hac), if_pos hac] at h2
        exact absurd h2 Bool.false_ne_true
    · rw [if_neg (asymm hab), if_pos hab] at h1
      exact absurd h1 Bool.false_ne_true

theorem optStrLeB_refl (x : Option String) : optStrLeB x x = true := by
  rcases x with _ | a
  · rfl
  · exact charListLeB_refl a.data

theorem optStrLeB_total (x y : Option String) :
    optStrLeB x y = true ∨ optStrLeB y x = true := by
  rcases x with _ | a
  · exact Or.inl rfl
  · rcases y with _ | b
    · exact Or.inr rfl
    · exact charListLeB_total a.data b.data

theorem optStrLeB_trans (x y z : Option String)
    (h1 : optStrLeB x y = true) (h2 : optStrLeB y z = true) :
    optStrLeB x z = true := by
  rcases x with _ | a
  · rfl
  · rcases y with _ | b
    · exact absurd h1 (by simp [optStrLeB])
    · rcases z with _ | c
      · exact absurd h2 (by simp [optStrLeB])
      · exact charListLeB_trans a.data b.data c.data h1 h2

/-- Stability of the aggregate sort, stated per provider key: sorting
does not reorder (or drop, or duplicate) the results carrying any fixed
provider name. -/
theorem insertionSort_filter_stable (l : List SearchResult) (p : Option String) :
    (List.insertionSort resLe l).filter (fun r => decide (r.provider = p)) =
      l.filter (fun r => decide (r.provider = p)) := by
  haveI : IsTotal SearchResult resLe := ⟨fun a b => optStrLeB_total a.provider b.provider⟩
  haveI : IsTrans SearchResult resLe :=
    ⟨fun a b c => optStrLeB_trans a.provider b.provider c.provider⟩
  have hsub : List.Sublist (l.filter (fun r => decide (r.provider = p)))
      (List.insertionSort resLe l) := by
    apply List.sublist_insertionSort
    · apply List.pairwise_of_forall_mem_list
      intro a ha b hb
      have hap : a.provider = p := by
        have := (List.mem_filter.mp ha).2
        simpa using this
      have hbp : b.provider = p := by
        have := (List.mem_filter.mp hb).2
        simpa using this
      unfold resLe
      rw [hap, hbp]
      exact optStrLeB_refl p
    · exact List.filter_sublist l
  have hsub2 := List.Sublist.filter (fun r => decide (r.provider = p)) hsub
  have hself : (l.filter (fun r => decide (r.provider = p))).filter
      (fun r => decide (r.provider = p)) = l.filter (fun r => decide (r.provider = p)) := by
    apply List.filter_eq_self.mpr
    intro a ha
    exact (List.mem_filter.mp ha).2
  rw [hself] at hsub2
  have hperm := (List.perm_insertionSort resLe l).filter (fun r => decide (r.provider = p))
  exact (List.Sublist.eq_of_length hsub2 hperm.length_eq.symm).symm

/-! ### Consecutive LoadBalance calls -/

theorem searchLoadBalance_eq_invoke (cfg : MultiProviderConfig) (opts : SearchOptionsMulti)
    (env : List Invocation) (stats : StatsMap) (h0 : 0 < cfg.providers.length) :
    searchLoadBalance cfg opts env stats
      = invoke cfg env stats (sumTotalRequests stats % cfg.providers.length) := by
  unfold searchLoadBalance
  have hne : cfg.providers.isEmpty = false := by
    rcases hp : cfg.providers with _ | ⟨q, qs⟩
    · rw [hp] at h0; exact absurd h0 (by simp)
    · rfl
  rw [hne]
  rfl

theorem loadBalanceRun_spec (cfg : MultiProviderConfig) (opts : SearchOptionsMulti)
    (h0 : 0 < cfg.providers.length) :
    ∀ (envs : List (List Invocation)) (stats : StatsMap),
      (∀ env ∈ envs, cfg.providers.length ≤ env.length) →
      (∀ p ∈ cfg.providers, (lookupStats stats p.name).isSome = true) →
      (loadBalanceRun cfg opts envs stats).1
        = (List.range envs.length).map
            (fun k => [(sumTotalRequests stats + k) % cfg.providers.length]) ∧
      sumTotalRequests (loadBalanceRun cfg opts envs stats).2
        = sumTotalRequests stats + envs.length := by
  intro envs
  induction envs with
  | nil => intro stats _ _; exact ⟨rfl, rfl⟩
  | cons env rest ih =>
    intro stats hlen hcov
    have hidx : sumTotalRequests stats % cfg.providers.length < cfg.providers.length :=
      Nat.mod_lt _ h0
    have hp : cfg.providers[sumTotalRequests stats % cfg.providers.length]?
        = some (cfg.providers[sumTotalRequests stats % cfg.providers.length]) :=
      List.getElem?_eq_getElem hidx
    have hpmem : cfg.providers[sumTotalRequests stats % cfg.providers.length] ∈ cfg.providers :=
      List.getElem_mem hidx
    have hienv : sumTotalRequests stats % cfg.providers.length < env.length :=
      Nat.lt_of_lt_of_le hidx (hlen env (List.mem_cons_self _ _))
    have hinv : env[sumTotalRequests stats % cfg.providers.length]?
        = some (env[sumTotalRequests stats % cfg.providers.length]) :=
      List.getElem?_eq_getElem hienv
    obtain ⟨s, hs⟩ := Option.isSome_iff_exists.mp
      (hcov (cfg.providers[sumTotalRequests stats % cfg.providers.length]) hpmem)
    have hred := searchLoadBalance_eq_invoke cfg opts env stats h0
    have hsum : sumTotalRequests (searchLoadBalance cfg opts env stats).stats
        = sumTotalRequests stats + 1 := by
      rw [hred]
      exact invoke_sumTotal cfg env stats _ _ _ s hp hinv hs
    have hcov' : ∀ p ∈ cfg.providers,
        (lookupStats (searchLoadBalance cfg opts env stats).stats p.name).isSome = true := by
      intro p hpm
      rw [hred, invoke_stats_isSome cfg env stats _ _ _ p.name hp hinv]
      exact hcov p hpm
    obtain ⟨ih1, ih2⟩ := ih (searchLoadBalance cfg opts env stats).stats
      (fun e he => hlen e (List.mem_cons_of_mem _ he)) hcov'
    constructor
    · show (searchLoadBalance cfg opts env stats).calls
          :: (loadBalanceRun cfg opts rest (searchLoadBalance cfg opts env stats).stats).1 = _
      rw [ih1, hsum]
      have hcalls : (searchLoadBalance cfg opts env stats).calls
          = [sumTotalRequests stats % cfg.providers.length] := by
        rw [hred, invoke_calls]
      rw [hcalls, List.length_cons, List.range_succ_eq_map, List.map_cons, List.map_map]
      refine congrArg₂ _ (by rw [Nat.add_zero]) ?_
      refine List.map_congr_left ?_
      intro k hk
      show [(sumTotalRequests stats + 1 + k) % cfg.providers.length]
        = [(sumTotalRequests stats + (k + 1)) % cfg.providers.length]
      have : sumTotalRequests stats + 1 + k = sumTotalRequests stats + (k + 1) := by omega
      rw [this]
    · show sumTotalRequests
          (loadBalanceRun cfg opts rest (searchLoadBalance cfg opts env stats).stats).2 = _
      rw [ih2, hsum, List.length_cons]
      omega

/-! ### Strategy-level reductions -/

theorem lookupStats_mem (m : StatsMap) (k : String) (v : ProviderStats)
    (h : lookupStats m k = some v) : (k, v) ∈ m := by
  induction m with
  | nil => cases h
  | cons kv rest ih =>
    obtain ⟨k', v'⟩ := kv
    by_cases h0 : k' = k
    · simp only [lookupStats, if_pos h0] at h
      cases h
      subst h0
      exact List.mem_cons_self _ _
    · simp only [lookupStats, if_neg h0] at h
      exact List.mem_cons_of_mem _ (ih h)

theorem searchAggregate_res_eq (cfg : MultiProviderConfig) (opts : SearchOptionsMulti)
    (env : List Invocation) (stats : StatsMap) :
    (searchAggregate cfg opts env stats).res
      = if aggConcat cfg env (List.range cfg.providers.length) = [] then
          Except.error (SearchError.Other "All providers failed")
        else
          Except.ok (truncOpt opts.max_results
            (List.insertionSort resLe (aggConcat cfg env (List.range cfg.providers.length)))) := by
  have hm := (aggregateGo_spec cfg env (List.range cfg.providers.length) stats).1
  rcases hL : aggConcat cfg env (List.range cfg.providers.length) with _ | ⟨x, xs⟩
  · rw [hL] at hm
    simp [searchAggregate, hm]
  · rw [hL] at hm
    simp [searchAggregate, hm, hL]

theorem aggConcat_nil_of_all_fail (cfg : MultiProviderConfig) (env : List Invocation)
    (h : ∀ i, i < cfg.providers.length → ∃ e, invokeResAt cfg env i = Except.error e) :
    aggConcat cfg env (List.range cfg.providers.length) = [] := by
  unfold aggConcat
  rw [List.flatten_eq_nil_iff]
  intro l hl
  obtain ⟨i, hi, hmap⟩ := List.mem_map.mp hl
  obtain ⟨e, he⟩ := h i (List.mem_range.mp hi)
  rw [← hmap]
  unfold okResultsAt
  rw [he]

theorem searchRaceFirst_eq_raceGo (cfg : MultiProviderConfig) (opts : SearchOptionsMulti)
    (env : List Invocation) (stats : StatsMap) (h : 0 < cfg.providers.length) :
    searchRaceFirst cfg opts env stats
      = raceGo cfg env (List.range cfg.providers.length) stats := by
  unfold searchRaceFirst
  have hne : cfg.providers.isEmpty = false := by
    rcases hp : cfg.providers with _ | ⟨q, qs⟩
    · rw [hp] at h; exact absurd h (by simp)
    · rfl
  rw [hne]
  rfl

/-! ### Claim C1 -/

/-- Claim C1, counterexample to the original statement: a single
provider that succeeds with an empty result list. At least one provider
succeeds (its invocation returns `Ok([])`), yet Aggregate returns the
"All providers failed" error, because the code tests emptiness of the
merged list, not whether every provider failed. -/
theorem claim_c1_counterexample :
    invokeResAt (mkCfg [{ name := "p" }] MultiProviderStrategy.Aggregate 100)
        [doneInv (Except.ok []) 5] 0 = Except.ok [] ∧
    (searchAggregate (mkCfg [{ name := "p" }] MultiProviderStrategy.Aggregate 100)
        SearchOptionsMulti.default [doneInv (Except.ok []) 5]
        (initStats [{ name := "p" }])).res
      = Except.error (SearchError.Other "All providers failed") := by
  exact ⟨rfl, rfl⟩

/-- Claim C1 (amended): under Aggregate, the "All providers failed"
error is returned iff the concatenation of the succeeding providers'
result lists is empty — in particular whenever every provider's
invocation fails, but also when the only successes carry empty result
lists; whenever that concatenation is non-empty the call returns `Ok`
with the merged (sorted, truncated) results, each failing provider's
error silently dropped. -/
theorem claim_c1_aggregate_error_iff_empty_merge (cfg : MultiProviderConfig)
    (opts : SearchOptionsMulti) (env : List Invocation) (stats : StatsMap) :
    ((searchAggregate cfg opts env stats).res
        = Except.error (SearchError.Other "All providers failed")
      ↔ aggConcat cfg env (List.range cfg.providers.length) = []) ∧
    ((∀ i, i < cfg.providers.length → ∃ e, invokeResAt cfg env i = Except.error e) →
      (searchAggregate cfg opts env stats).res
        = Except.error (SearchError.Other "All providers failed")) ∧
    (aggConcat cfg env (List.range cfg.providers.length) ≠ [] →
      (searchAggregate cfg opts env stats).res
        = Except.ok (truncOpt opts.max_results
            (List.insertionSort resLe (aggConcat cfg env (List.range cfg.providers.length))))) := by
  have hres := searchAggregate_res_eq cfg opts env stats
  refine ⟨?_, ?_, ?_⟩
  · by_cases h : aggConcat cfg env (List.range cfg.providers.length) = []
    · rw [hres, if_pos h]
      exact ⟨fun _ => h, fun _ => rfl⟩
    · rw [hres, if_neg h]
      constructor
      · intro hc
        cases hc
      · intro hc
        exact absurd hc h
  · intro hall
    rw [hres, if_pos (aggConcat_nil_of_all_fail cfg env hall)]
  · intro hne
    rw [hres, if_neg hne]

/-- Claim C1, witness: a single always-failing provider, on which the
amended theorem yields the "All providers failed" error. -/
theorem claim_c1_witness :
    (∀ i, i < (mkCfg [{ name := "a" }] MultiProviderStrategy.Aggregate 100).providers.length →
      ∃ e, invokeResAt (mkCfg [{ name := "a" }] MultiProviderStrategy.Aggregate 100)
        [doneInv (Except.error (SearchError.ProviderError "x")) 1] i = Except.error e) ∧
    (searchAggregate (mkCfg [{ name := "a" }] MultiProviderStrategy.Aggregate 100)
        SearchOptionsMulti.default [doneInv (Except.error (SearchError.ProviderError "x")) 1]
        (initStats [{ name := "a" }])).res
      = Except.error (SearchError.Other "All providers failed") := by
  have hall : ∀ i,
      i < (mkCfg [{ name := "a" }] MultiProviderStrategy.Aggregate 100).providers.length →
      ∃ e, invokeResAt (mkCfg [{ name := "a" }] MultiProviderStrategy.Aggregate 100)
        [doneInv (Except.error (SearchError.ProviderError "x")) 1] i = Except.error e := by
    intro i hi
    have h1 : i = 0 := by
      have h2 : (mkCfg [{ name := "a" }]
          MultiProviderStrategy.Aggregate 100).providers.length = 1 := rfl
      omega
    subst h1
    exact ⟨SearchError.ProviderError "x", rfl⟩
  exact ⟨hall, (claim_c1_aggregate_error_iff_empty_merge
    (mkCfg [{ name := "a" }] MultiProviderStrategy.Aggregate 100)
    SearchOptionsMulti.default [doneInv (Except.error (SearchError.ProviderError "x")) 1]
    (initStats [{ name := "a" }])).2.1 hall⟩

/-! ### Claim C2 -/

/-- Claim C2, counterexample to the original statement: with an empty
provider list, the Aggregate strategy returns the "All providers failed"
error, not the "No providers configured" error the claim asserts for
every strategy. -/
theorem claim_c2_counterexample :
    (MultiProviderSearch.search (mkCfg [] MultiProviderStrategy.Aggregate 100)
        SearchOptionsMulti.default [] (initStats [])).res
      = Except.error (SearchError.Other "All providers failed") ∧
    SearchError.Other "All providers failed" ≠ SearchError.Other "No providers configured" := by
  exact ⟨rfl, by decide⟩

/-- Claim C2 (amended): with an empty provider list, Failover,
LoadBalance and Race return the "No providers configured" error while
Aggregate returns the "All providers failed" error; under every
strategy no provider is invoked (empty call trace), the stats map is
left untouched, and the stats map built for an empty provider list is
itself empty. -/
theorem claim_c2_empty_provider_list (strat : MultiProviderStrategy)
    (opts : SearchOptionsMulti) (env : List Invocation) (stats : StatsMap) (tms mc : Nat) :
    (MultiProviderSearch.search
        { providers := [], strategy := strat, timeout_per_provider_ms := tms,
          max_concurrent := mc } opts env stats).res
      = Except.error (match strat with
          | MultiProviderStrategy.Aggregate => SearchError.Other "All providers failed"
          | _ => SearchError.Other "No providers configured") ∧
    (MultiProviderSearch.search
        { providers := [], strategy := strat, timeout_per_provider_ms := tms,
          max_concurrent := mc } opts env stats).calls = [] ∧
    (MultiProviderSearch.search
        { providers := [], strategy := strat, timeout_per_provider_ms := tms,
          max_concurrent := mc } opts env stats).stats = stats ∧
    initStats [] = [] := by
  cases strat <;> exact ⟨rfl, rfl, rfl, rfl⟩

/-! ### Claim C3 -/

/-- Claim C3, counterexample to the original statement: one provider
failing with a distinctive error. Failover surfaces that (last) error,
while Race returns its own fixed "All providers in race failed" error,
so the two strategies are not observably identical. -/
theorem claim_c3_counterexample :
    (searchRaceFirst (mkCfg [{ name := "p" }] MultiProviderStrategy.RaceFirst 100)
        SearchOptionsMulti.default
        [doneInv (Except.error (SearchError.ProviderError "boom")) 1]
        (initStats [{ name := "p" }])).res
      = Except.error (SearchError.Other "All providers in race failed") ∧
    (searchFailover (mkCfg [{ name := "p" }] MultiProviderStrategy.RaceFirst 100)
        SearchOptionsMulti.default
        [doneInv (Except.error (SearchError.ProviderError "boom")) 1]
        (initStats [{ name := "p" }])).res
      = Except.error (SearchError.ProviderError "boom") ∧
    SearchError.Other "All providers in race failed" ≠ SearchError.ProviderError "boom" := by
  exact ⟨rfl, rfl, by decide⟩

/-- Claim C3 (amended): Race and Failover invoke the same providers in
the same registration order and perform identical stats updates, and
they return identical results whenever any provider succeeds; they
differ only in the error surfaced when every provider fails — Failover
returns the last attempted provider's error (proved with claim C5),
while Race returns the fixed "All providers in race failed" error. -/
theorem claim_c3_race_vs_failover (cfg : MultiProviderConfig) (opts : SearchOptionsMulti)
    (env : List Invocation) (stats : StatsMap) :
    (searchRaceFirst cfg opts env stats).stats = (searchFailover cfg opts env stats).stats ∧
    (searchRaceFirst cfg opts env stats).calls = (searchFailover cfg opts env stats).calls ∧
    (∀ rs, (searchRaceFirst cfg opts env stats).res = Except.ok rs
        ↔ (searchFailover cfg opts env stats).res = Except.ok rs) ∧
    (0 < cfg.providers.length →
      (∀ i, i < cfg.providers.length → ∃ e, invokeResAt cfg env i = Except.error e) →
      (searchRaceFirst cfg opts env stats).res
        = Except.error (SearchError.Other "All providers in race failed")) := by
  by_cases h0 : cfg.providers.length = 0
  · have hemp : cfg.providers = [] := List.length_eq_zero.mp h0
    have hR : searchRaceFirst cfg opts env stats
        = { res := Except.error (SearchError.Other "No providers configured"),
            stats := stats, calls := [] } := by
      unfold searchRaceFirst
      rw [hemp]
      rfl
    have hF : searchFailover cfg opts env stats
        = { res := Except.error (SearchError.Other "No providers configured"),
            stats := stats, calls := [] } := by
      unfold searchFailover
      rw [h0]
      rfl
    rw [hR, hF]
    exact ⟨rfl, rfl, fun rs => Iff.rfl, fun hlen _ => absurd h0 (by omega)⟩
  · have hlen : 0 < cfg.providers.length := Nat.pos_of_ne_zero h0
    rw [searchRaceFirst_eq_raceGo cfg opts env stats hlen]
    have hF : searchFailover cfg opts env stats
        = failoverGo cfg env (List.range cfg.providers.length) stats
            (SearchError.Other "No providers configured") := rfl
    rw [hF]
    obtain ⟨h1, h2, h3⟩ := raceGo_failoverGo_equiv cfg env (List.range cfg.providers.length)
      stats (SearchError.Other "No providers configured")
    refine ⟨h1, h2, h3, ?_⟩
    intro _ hall
    exact (raceGo_all_fail cfg env (List.range cfg.providers.length) stats
      (fun i hi => hall i (List.mem_range.mp hi))).2

/-- Claim C3, witness: one always-failing provider; the amended theorem
yields Race's fixed "All providers in race failed" error. -/
theorem claim_c3_witness :
    0 < (mkCfg [{ name := "a" }] MultiProviderStrategy.RaceFirst 100).providers.length ∧
    (searchRaceFirst (mkCfg [{ name := "a" }] MultiProviderStrategy.RaceFirst 100)
        SearchOptionsMulti.default
        [doneInv (Except.error (SearchError.ProviderError "x")) 1]
        (initStats [{ name := "a" }])).res
      = Except.error (SearchError.Other "All providers in race failed") := by
  have hall : ∀ i,
      i < (mkCfg [{ name := "a" }] MultiProviderStrategy.RaceFirst 100).providers.length →
      ∃ e, invokeResAt (mkCfg [{ name := "a" }] MultiProviderStrategy.RaceFirst 100)
        [doneInv (Except.error (SearchError.ProviderError "x")) 1] i = Except.error e := by
    intro i hi
    have h1 : i = 0 := by
      have h2 : (mkCfg [{ name := "a" }]
          MultiProviderStrategy.RaceFirst 100).providers.length = 1 := rfl
      omega
    subst h1
    exact ⟨SearchError.ProviderError "x", rfl⟩
  exact ⟨by decide, (claim_c3_race_vs_failover
    (mkCfg [{ name := "a" }] MultiProviderStrategy.RaceFirst 100)
    SearchOptionsMulti.default [doneInv (Except.error (SearchError.ProviderError "x")) 1]
    (initStats [{ name := "a" }])).2.2.2 (by decide) hall⟩

/-! ### Claim C4 -/

/-- Claim C4, counterexample to the original statement: two providers,
the first succeeding with an empty list and the second failing. At
least one provider succeeds, yet no `Ok` list is returned — the call
fails with "All providers failed", so "at least one provider succeeds"
is not a sufficient hypothesis. -/
theorem claim_c4_counterexample :
    invokeResAt (mkCfg [{ name := "a" }, { name := "b" }] MultiProviderStrategy.Aggregate 100)
        [doneInv (Except.ok []) 1, doneInv (Except.error (SearchError.ProviderError "y")) 1]
        0 = Except.ok [] ∧
    (searchAggregate
        (mkCfg [{ name := "a" }, { name := "b" }] MultiProviderStrategy.Aggregate 100)
        SearchOptionsMulti.default
        [doneInv (Except.ok []) 1, doneInv (Except.error (SearchError.ProviderError "y")) 1]
        (initStats [{ name := "a" }, { name := "b" }])).res
      = Except.error (SearchError.Other "All providers failed") := by
  exact ⟨rfl, rfl⟩

/-- Claim C4 (amended): under Aggregate, whenever the concatenation (in
registration order) of the succeeding providers' result lists is
non-empty, the returned list is exactly that concatenation stably
sorted ascending by the result's provider-name field (results with no
provider name first), with no deduplication, truncated to
`max_results` when present; its length is the concatenation's length
capped at `max_results`, and the concatenation's length is the sum of
the succeeding providers' output lengths. (The original claim's
hypothesis "at least one provider succeeds" is insufficient: a
provider succeeding with an empty list while all others fail still
yields the "All providers failed" error.) -/
theorem claim_c4_aggregate_order_and_length (cfg : MultiProviderConfig)
    (opts : SearchOptionsMulti) (env : List Invocation) (stats : StatsMap)
    (hne : aggConcat cfg env (List.range cfg.providers.length) ≠ []) :
    (searchAggregate cfg opts env stats).res
      = Except.ok (truncOpt opts.max_results
          (List.insertionSort resLe (aggConcat cfg env (List.range cfg.providers.length)))) ∧
    List.Sorted resLe
      (List.insertionSort resLe (aggConcat cfg env (List.range cfg.providers.length))) ∧
    List.Perm (List.insertionSort resLe (aggConcat cfg env (List.range cfg.providers.length)))
      (aggConcat cfg env (List.range cfg.providers.length)) ∧
    (∀ p : Option String,
      (List.insertionSort resLe (aggConcat cfg env (List.range cfg.providers.length))).filter
          (fun r => decide (r.provider = p))
        = (aggConcat cfg env (List.range cfg.providers.length)).filter
            (fun r => decide (r.provider = p))) ∧
    (truncOpt opts.max_results
        (List.insertionSort resLe (aggConcat cfg env (List.range cfg.providers.length)))).length
      = (match opts.max_results with
          | some m => min m (aggConcat cfg env (List.range cfg.providers.length)).length
          | none => (aggConcat cfg env (List.range cfg.providers.length)).length) ∧
    (aggConcat cfg env (List.range cfg.providers.length)).length
      = ((List.range cfg.providers.length).map
          (fun i => (okResultsAt cfg env i).length)).sum := by
  refine ⟨?_, ?_, ?_, ?_, ?_, ?_⟩
  · rw [searchAggregate_res_eq, if_neg hne]
  · haveI : IsTotal SearchResult resLe := ⟨fun a b => optStrLeB_total a.provider b.provider⟩
    haveI : IsTrans SearchResult resLe :=
      ⟨fun a b c => optStrLeB_trans a.provider b.provider c.provider⟩
    exact List.sorted_insertionSort resLe _
  · exact List.perm_insertionSort resLe _
  · intro p
    exact insertionSort_filter_stable _ p
  · rcases hm : opts.max_results with _ | m
    · simp [truncOpt, List.length_insertionSort]
    · simp [truncOpt, List.length_take, List.length_insertionSort]
  · unfold aggConcat
    rw [List.length_flatten, List.map_map]
    rfl

/-- Claim C4, witness: providers registered in the order "b", "a", each
succeeding with one result; the merged list is non-empty, and the
returned list is the sorted, truncated concatenation — concretely the
"a" result now precedes the "b" result. -/
theorem claim_c4_witness :
    aggConcat (mkCfg [{ name := "b" }, { name := "a" }] MultiProviderStrategy.Aggregate 100)
        [doneInv (Except.ok [sampleResult "b" "https://b/1"]) 2,
          doneInv (Except.ok [sampleResult "a" "https://a/1"]) 3]
        (List.range (mkCfg [{ name := "b" }, { name := "a" }]
          MultiProviderStrategy.Aggregate 100).providers.length) ≠ [] ∧
    (searchAggregate
        (mkCfg [{ name := "b" }, { name := "a" }] MultiProviderStrategy.Aggregate 100)
        SearchOptionsMulti.default
        [doneInv (Except.ok [sampleResult "b" "https://b/1"]) 2,
          doneInv (Except.ok [sampleResult "a" "https://a/1"]) 3]
        (initStats [{ name := "b" }, { name := "a" }])).res
      = Except.ok (truncOpt SearchOptionsMulti.default.max_results
          (List.insertionSort resLe
            (aggConcat (mkCfg [{ name := "b" }, { name := "a" }]
                MultiProviderStrategy.Aggregate 100)
              [doneInv (Except.ok [sampleResult "b" "https://b/1"]) 2,
                doneInv (Except.ok [sampleResult "a" "https://a/1"]) 3]
              (List.range (mkCfg [{ name := "b" }, { name := "a" }]
                MultiProviderStrategy.Aggregate 100).providers.length)))) ∧
    (searchAggregate
        (mkCfg [{ name := "b" }, { name := "a" }] MultiProviderStrategy.Aggregate 100)
        SearchOptionsMulti.default
        [doneInv (Except.ok [sampleResult "b" "https://b/1"]) 2,
          doneInv (Except.ok [sampleResult "a" "https://a/1"]) 3]
        (initStats [{ name := "b" }, { name := "a" }])).res
      = Except.ok [sampleResult "a" "https://a/1", sampleResult "b" "https://b/1"] := by
  have hne : aggConcat
      (mkCfg [{ name := "b" }, { name := "a" }] MultiProviderStrategy.Aggregate 100)
      [doneInv (Except.ok [sampleResult "b" "https://b/1"]) 2,
        doneInv (Except.ok [sampleResult "a" "https://a/1"]) 3]
      (List.range (mkCfg [{ name := "b" }, { name := "a" }]
        MultiProviderStrategy.Aggregate 100).providers.length) ≠ [] := by
    decide
  have h1 := (claim_c4_aggregate_order_and_length
    (mkCfg [{ name := "b" }, { name := "a" }] MultiProviderStrategy.Aggregate 100)
    SearchOptionsMulti.default
    [doneInv (Except.ok [sampleResult "b" "https://b/1"]) 2,
      doneInv (Except.ok [sampleResult "a" "https://a/1"]) 3]
    (initStats [{ name := "b" }, { name := "a" }]) hne).1
  refine ⟨hne, h1, ?_⟩
  rw [h1]
  decide

/-! ### Claim C5 -/

/-- Claim C5 (confirmed): under Failover, if provider `k` is the first
whose invocation succeeds, the call returns exactly provider `k`'s
result list unchanged and the invocation trace is `[0, 1, ..., k]` —
providers before `k` each invoked exactly once, in registration order,
providers after `k` never invoked; and if every provider fails, the
call returns the last provider's error and every provider was invoked
once in order. -/
theorem claim_c5_failover (cfg : MultiProviderConfig) (opts : SearchOptionsMulti)
    (env : List Invocation) (stats : StatsMap) :
    (∀ k rs, k < cfg.providers.length →
      (∀ j, j < k → ∃ e, invokeResAt cfg env j = Except.error e) →
      invokeResAt cfg env k = Except.ok rs →
      (searchFailover cfg opts env stats).res = Except.ok rs ∧
      (searchFailover cfg opts env stats).calls = List.range (k + 1)) ∧
    (∀ e, 0 < cfg.providers.length →
      (∀ j, j < cfg.providers.length → ∃ e', invokeResAt cfg env j = Except.error e') →
      invokeResAt cfg env (cfg.providers.length - 1) = Except.error e →
      (searchFailover cfg opts env stats).res = Except.error e ∧
      (searchFailover cfg opts env stats).calls = List.range cfg.providers.length) := by
  have hF : searchFailover cfg opts env stats
      = failoverGo cfg env (List.range cfg.providers.length) stats
          (SearchError.Other "No providers configured") := rfl
  constructor
  · intro k rs hk hfail hok
    rw [hF, List.range_eq_range']
    obtain ⟨h1, h2⟩ := failoverGo_first_success cfg env rs cfg.providers.length 0 k stats
      (SearchError.Other "No providers configured") (Nat.zero_le k) (by omega)
      (fun j hj1 hj2 => hfail j hj2) hok
    refine ⟨h1, ?_⟩
    rw [h2]
    have h3 : k - 0 + 1 = k + 1 := by omega
    rw [h3, ← List.range_eq_range']
  · intro e hlen hall hlast
    have hfails : ∀ i ∈ List.range cfg.providers.length,
        ∃ e', invokeResAt cfg env i = Except.error e' :=
      fun i hi => hall i (List.mem_range.mp hi)
    obtain ⟨hc, _, hres⟩ := failoverGo_all_fail cfg env (List.range cfg.providers.length)
      stats (SearchError.Other "No providers configured") hfails
    have hgl : (List.range cfg.providers.length).getLast?
        = some (cfg.providers.length - 1) := by
      have h1 : cfg.providers.length = (cfg.providers.length - 1) + 1 := by omega
      rw [h1, List.range_succ, List.getLast?_concat]
      rfl
    rw [hF]
    exact ⟨hres (cfg.providers.length - 1) e hgl hlast, hc⟩

/-- Claim C5, witness: two providers, the first failing with an HTTP
error, the second succeeding; Failover returns the second provider's
results and the trace shows both were invoked once, in order. -/
theorem claim_c5_witness :
    1 < (mkCfg [{ name := "a" }, { name := "b" }]
        MultiProviderStrategy.Failover 100).providers.length ∧
    invokeResAt (mkCfg [{ name := "a" }, { name := "b" }] MultiProviderStrategy.Failover 100)
        [doneInv (Except.error (SearchError.HttpError "Server error" (some 500) none)) 1,
          doneInv (Except.ok [sampleResult "b" "https://b/1"]) 2] 1
      = Except.ok [sampleResult "b" "https://b/1"] ∧
    (searchFailover (mkCfg [{ name := "a" }, { name := "b" }]
          MultiProviderStrategy.Failover 100)
        SearchOptionsMulti.default
        [doneInv (Except.error (SearchError.HttpError "Server error" (some 500) none)) 1,
          doneInv (Except.ok [sampleResult "b" "https://b/1"]) 2]
        (initStats [{ name := "a" }, { name := "b" }])).res
      = Except.ok [sampleResult "b" "https://b/1"] ∧
    (searchFailover (mkCfg [{ name := "a" }, { name := "b" }]
          MultiProviderStrategy.Failover 100)
        SearchOptionsMulti.default
        [doneInv (Except.error (SearchError.HttpError "Server error" (some 500) none)) 1,
          doneInv (Except.ok [sampleResult "b" "https://b/1"]) 2]
        (initStats [{ name := "a" }, { name := "b" }])).calls
      = List.range (1 + 1) := by
  have hfail : ∀ j, j < 1 →
      ∃ e, invokeResAt (mkCfg [{ name := "a" }, { name := "b" }]
          MultiProviderStrategy.Failover 100)
        [doneInv (Except.error (SearchError.HttpError "Server error" (some 500) none)) 1,
          doneInv (Except.ok [sampleResult "b" "https://b/1"]) 2] j = Except.error e := by
    intro j hj
    have h1 : j = 0 := by omega
    subst h1
    exact ⟨SearchError.HttpError "Server error" (some 500) none, rfl⟩
  obtain ⟨h1, h2⟩ := (claim_c5_failover
    (mkCfg [{ name := "a" }, { name := "b" }] MultiProviderStrategy.Failover 100)
    SearchOptionsMulti.default
    [doneInv (Except.error (SearchError.HttpError "Server error" (some 500) none)) 1,
      doneInv (Except.ok [sampleResult "b" "https://b/1"]) 2]
    (initStats [{ name := "a" }, { name := "b" }])).1 1
    [sampleResult "b" "https://b/1"] (by decide) hfail rfl
  exact ⟨by decide, rfl, h1, h2⟩

/-! ### Claim C6 -/

/-- Claim C6 (confirmed): under LoadBalance with a non-empty provider
list, exactly one provider is invoked per call — the one at index
`(sum of total_requests over all stats entries at call entry) mod
(provider count)` — and its outcome is returned as-is: the provider's
own result when it resolves in time, the `Timeout` error otherwise,
with no fallback to any other provider. -/
theorem claim_c6_load_balance (cfg : MultiProviderConfig) (opts : SearchOptionsMulti)
    (env : List Invocation) (stats : StatsMap) (h0 : 0 < cfg.providers.length) :
    (searchLoadBalance cfg opts env stats).calls
      = [sumTotalRequests stats % cfg.providers.length] ∧
    (searchLoadBalance cfg opts env stats).res
      = invokeResAt cfg env (sumTotalRequests stats % cfg.providers.length) ∧
    (∀ inv, env[sumTotalRequests stats % cfg.providers.length]? = some inv →
      (searchLoadBalance cfg opts env stats).res
        = invokeRes cfg.timeout_per_provider_ms inv) := by
  rw [searchLoadBalance_eq_invoke cfg opts env stats h0]
  refine ⟨invoke_calls _ _ _ _, invoke_res _ _ _ _, ?_⟩
  intro inv hinv
  rw [invoke_res]
  unfold invokeResAt
  rw [List.getElem?_eq_getElem (Nat.mod_lt _ h0), hinv]

/-- Claim C6, witness: two fresh providers; the first call selects
index `0 mod 2` and returns that provider's outcome. -/
theorem claim_c6_witness :
    0 < (mkCfg [{ name := "a" }, { name := "b" }]
        MultiProviderStrategy.LoadBalance 100).providers.length ∧
    (searchLoadBalance (mkCfg [{ name := "a" }, { name := "b" }]
          MultiProviderStrategy.LoadBalance 100)
        SearchOptionsMulti.default
        [doneInv (Except.ok [sampleResult "a" "https://a/1"]) 1,
          doneInv (Except.ok [sampleResult "b" "https://b/1"]) 1]
        (initStats [{ name := "a" }, { name := "b" }])).calls
      = [sumTotalRequests (initStats [{ name := "a" }, { name := "b" }])
          % (mkCfg [{ name := "a" }, { name := "b" }]
              MultiProviderStrategy.LoadBalance 100).providers.length] ∧
    (searchLoadBalance (mkCfg [{ name := "a" }, { name := "b" }]
          MultiProviderStrategy.LoadBalance 100)
        SearchOptionsMulti.default
        [doneInv (Except.ok [sampleResult "a" "https://a/1"]) 1,
          doneInv (Except.ok [sampleResult "b" "https://b/1"]) 1]
        (initStats [{ name := "a" }, { name := "b" }])).res
      = invokeResAt (mkCfg [{ name := "a" }, { name := "b" }]
            MultiProviderStrategy.LoadBalance 100)
          [doneInv (Except.ok [sampleResult "a" "https://a/1"]) 1,
            doneInv (Except.ok [sampleResult "b" "https://b/1"]) 1]
          (sumTotalRequests (initStats [{ name := "a" }, { name := "b" }])
            % (mkCfg [{ name := "a" }, { name := "b" }]
                MultiProviderStrategy.LoadBalance 100).providers.length) := by
  obtain ⟨h1, h2, _⟩ := claim_c6_load_balance
    (mkCfg [{ name := "a" }, { name := "b" }] MultiProviderStrategy.LoadBalance 100)
    SearchOptionsMulti.default
    [doneInv (Except.ok [sampleResult "a" "https://a/1"]) 1,
      doneInv (Except.ok [sampleResult "b" "https://b/1"]) 1]
    (initStats [{ name := "a" }, { name := "b" }]) (by decide)
  exact ⟨by decide, h1, h2⟩

/-! ### Claim C7 -/

/-- Claim C7 (confirmed): every invocation through the timed invoker
(the single code path all four strategies use) updates exactly the
invoked provider's stats entry, replacing it with `statsAfter`:
`total_requests` is incremented by one, and exactly one of
`successful_requests` or `failed_requests` is incremented by one; the
invariant `total_requests = successful_requests + failed_requests` is
preserved by the update, and every other key's entry is unchanged. -/
theorem claim_c7_stats_invariant (cfg : MultiProviderConfig) (env : List Invocation)
    (stats : StatsMap) (i : Nat) (p : Provider) (inv : Invocation) (s : ProviderStats)
    (hp : cfg.providers[i]? = some p) (he : env[i]? = some inv)
    (hs : lookupStats stats p.name = some s) :
    lookupStats (invoke cfg env stats i).stats p.name
      = some (statsAfter cfg.timeout_per_provider_ms inv s) ∧
    (statsAfter cfg.timeout_per_provider_ms inv s).total_requests = s.total_requests + 1 ∧
    (∀ rs, invokeRes cfg.timeout_per_provider_ms inv = Except.ok rs →
      (statsAfter cfg.timeout_per_provider_ms inv s).successful_requests
          = s.successful_requests + 1 ∧
      (statsAfter cfg.timeout_per_provider_ms inv s).failed_requests = s.failed_requests) ∧
    (∀ e, invokeRes cfg.timeout_per_provider_ms inv = Except.error e →
      (statsAfter cfg.timeout_per_provider_ms inv s).failed_requests
          = s.failed_requests + 1 ∧
      (statsAfter cfg.timeout_per_provider_ms inv s).successful_requests
          = s.successful_requests) ∧
    (s.total_requests = s.successful_requests + s.failed_requests →
      (statsAfter cfg.timeout_per_provider_ms inv s).total_requests
        = (statsAfter cfg.timeout_per_provider_ms inv s).successful_requests
          + (statsAfter cfg.timeout_per_provider_ms inv s).failed_requests) ∧
    (∀ k, k ≠ p.name →
      lookupStats (invoke cfg env stats i).stats k = lookupStats stats k) ∧
    (∀ q s0, q ∈ cfg.providers → lookupStats (initStats cfg.providers) q.name = some s0 →
      s0.total_requests = s0.successful_requests + s0.failed_requests) := by
  refine ⟨invoke_stats_lookup_self cfg env stats i p inv s hp he hs,
    statsAfter_total _ _ _, ?_, ?_, ?_, ?_, ?_⟩
  · intro rs hr
    unfold statsAfter
    rw [hr]
    exact ⟨rfl, rfl⟩
  · intro e hr
    unfold statsAfter
    rw [hr]
    exact ⟨rfl, rfl⟩
  · intro hinv
    rcases hr : invokeRes cfg.timeout_per_provider_ms inv with e | rs
    · unfold statsAfter
      rw [hr]
      show s.total_requests + 1 = s.successful_requests + (s.failed_requests + 1)
      omega
    · unfold statsAfter
      rw [hr]
      show s.total_requests + 1 = (s.successful_requests + 1) + s.failed_requests
      omega
  · intro k hk
    exact invoke_stats_lookup_ne cfg env stats i p inv k hp he hk
  · intro q s0 hq hs0
    have hmem := lookupStats_mem _ _ _ hs0
    have hdef := initStats_values_default cfg.providers (q.name, s0) hmem
    simp only at hdef
    rw [hdef]
    rfl

/-- Claim C7, witness: one provider succeeding; its entry goes from all
zeroes to one total and one successful request. -/
theorem claim_c7_witness :
    (mkCfg [{ name := "a" }] MultiProviderStrategy.Failover 100).providers[0]?
      = some { name := "a" } ∧
    ([doneInv (Except.ok [sampleResult "a" "https://a/1"]) 7])[0]?
      = some (doneInv (Except.ok [sampleResult "a" "https://a/1"]) 7) ∧
    lookupStats (initStats [{ name := "a" }]) "a" = some ProviderStats.default ∧
    lookupStats (invoke (mkCfg [{ name := "a" }] MultiProviderStrategy.Failover 100)
        [doneInv (Except.ok [sampleResult "a" "https://a/1"]) 7]
        (initStats [{ name := "a" }]) 0).stats "a"
      = some (statsAfter (mkCfg [{ name := "a" }]
            MultiProviderStrategy.Failover 100).timeout_per_provider_ms
          (doneInv (Except.ok [sampleResult "a" "https://a/1"]) 7) ProviderStats.default) ∧
    (statsAfter (mkCfg [{ name := "a" }]
          MultiProviderStrategy.Failover 100).timeout_per_provider_ms
        (doneInv (Except.ok [sampleResult "a" "https://a/1"]) 7)
        ProviderStats.default).total_requests
      = ProviderStats.default.total_requests + 1 ∧
    (statsAfter (mkCfg [{ name := "a" }]
          MultiProviderStrategy.Failover 100).timeout_per_provider_ms
        (doneInv (Except.ok [sampleResult "a" "https://a/1"]) 7)
        ProviderStats.default).successful_requests
      = ProviderStats.default.successful_requests + 1 := by
  obtain ⟨h1, h2, h3, _⟩ := claim_c7_stats_invariant
    (mkCfg [{ name := "a" }] MultiProviderStrategy.Failover 100)
    [doneInv (Except.ok [sampleResult "a" "https://a/1"]) 7]
    (initStats [{ name := "a" }]) 0 { name := "a" }
    (doneInv (Except.ok [sampleResult "a" "https://a/1"]) 7) ProviderStats.default
    rfl rfl rfl
  exact ⟨rfl, rfl, rfl, h1, h2,
    (h3 [sampleResult "a" "https://a/1"] rfl).1⟩

/-! ### Claim C8 -/

/-- Claim C8 (confirmed): the rolling mean is updated only on success,
by `new_mean = (old_mean * (n - 1) + elapsed_ms) / n` with `n` the
post-increment successful count (modeled over exact rationals, the
real-number reading of the `f64` computation); on any failure,
including timeout, `avg_response_time_ms` and `successful_requests`
are unchanged and only `failed_requests` (and `total_requests`)
increment. -/
theorem claim_c8_rolling_mean (cfg : MultiProviderConfig) (env : List Invocation)
    (stats : StatsMap) (i : Nat) (p : Provider) (inv : Invocation) (s : ProviderStats)
    (hp : cfg.providers[i]? = some p) (he : env[i]? = some inv)
    (hs : lookupStats stats p.name = some s) :
    lookupStats (invoke cfg env stats i).stats p.name
      = some (statsAfter cfg.timeout_per_provider_ms inv s) ∧
    (∀ rs, invokeRes cfg.timeout_per_provider_ms inv = Except.ok rs →
      (statsAfter cfg.timeout_per_provider_ms inv s).successful_requests
          = s.successful_requests + 1 ∧
      (statsAfter cfg.timeout_per_provider_ms inv s).avg_response_time_ms
          = (s.avg_response_time_ms * ((((s.successful_requests + 1) - 1 : Nat)) : ℚ)
              + ((inv.elapsedMs : Nat) : ℚ)) / (((s.successful_requests + 1 : Nat)) : ℚ)) ∧
    (∀ e, invokeRes cfg.timeout_per_provider_ms inv = Except.error e →
      (statsAfter cfg.timeout_per_provider_ms inv s).avg_response_time_ms
          = s.avg_response_time_ms ∧
      (statsAfter cfg.timeout_per_provider_ms inv s).successful_requests
          = s.successful_requests ∧
      (statsAfter cfg.timeout_per_provider_ms inv s).failed_requests
          = s.failed_requests + 1 ∧
      (statsAfter cfg.timeout_per_provider_ms inv s).total_requests
          = s.total_requests + 1) := by
  refine ⟨invoke_stats_lookup_self cfg env stats i p inv s hp he hs, ?_, ?_⟩
  · intro rs hr
    unfold statsAfter
    rw [hr]
    exact ⟨rfl, rfl⟩
  · intro e hr
    unfold statsAfter
    rw [hr]
    exact ⟨rfl, rfl, rfl, rfl⟩

/-- Claim C8, witness: a success with 7 ms elapsed starting from zeroed
stats gives mean `(0 * 0 + 7) / 1`; the explicit value is checked. -/
theorem claim_c8_witness :
    lookupStats (invoke (mkCfg [{ name := "a" }] MultiProviderStrategy.Failover 100)
        [doneInv (Except.ok [sampleResult "a" "https://a/1"]) 7]
        (initStats [{ name := "a" }]) 0).stats "a"
      = some (statsAfter (mkCfg [{ name := "a" }]
            MultiProviderStrategy.Failover 100).timeout_per_provider_ms
          (doneInv (Except.ok [sampleResult "a" "https://a/1"]) 7) ProviderStats.default) ∧
    (statsAfter (mkCfg [{ name := "a" }]
          MultiProviderStrategy.Failover 100).timeout_per_provider_ms
        (doneInv (Except.ok [sampleResult "a" "https://a/1"]) 7)
        ProviderStats.default).avg_response_time_ms
      = (ProviderStats.default.avg_response_time_ms
            * ((((ProviderStats.default.successful_requests + 1) - 1 : Nat)) : ℚ)
          + (((doneInv (Except.ok [sampleResult "a" "https://a/1"]) 7).elapsedMs : Nat) : ℚ))
        / (((ProviderStats.default.successful_requests + 1 : Nat)) : ℚ) ∧
    (statsAfter (mkCfg [{ name := "a" }]
          MultiProviderStrategy.Failover 100).timeout_per_provider_ms
        (doneInv (Except.ok [sampleResult "a" "https://a/1"]) 7)
        ProviderStats.default).avg_response_time_ms = (7 : ℚ) := by
  obtain ⟨h1, h2, _⟩ := claim_c8_rolling_mean
    (mkCfg [{ name := "a" }] MultiProviderStrategy.Failover 100)
    [doneInv (Except.ok [sampleResult "a" "https://a/1"]) 7]
    (initStats [{ name := "a" }]) 0 { name := "a" }
    (doneInv (Except.ok [sampleResult "a" "https://a/1"]) 7) ProviderStats.default
    rfl rfl rfl
  obtain ⟨h3, h4⟩ := h2 [sampleResult "a" "https://a/1"] rfl
  refine ⟨h1, h4, ?_⟩
  rw [h4]
  norm_num [ProviderStats.default, doneInv]

/-! ### Claim C9 -/

/-- Claim C9 (confirmed): when the per-provider deadline fires first,
the provider's eventual outcome is discarded and the timed invoker
returns a `Timeout` error carrying the configured timeout in
milliseconds, counting the invocation as failed; when the call
resolves within the deadline its own outcome is returned unchanged. -/
theorem claim_c9_timeout (cfg : MultiProviderConfig) (env : List Invocation)
    (stats : StatsMap) (i : Nat) (p : Provider) (inv : Invocation) (s : ProviderStats)
    (hp : cfg.providers[i]? = some p) (he : env[i]? = some inv)
    (hs : lookupStats stats p.name = some s) :
    (inv.timedOut = true →
      (invoke cfg env stats i).res
          = Except.error (SearchError.Timeout cfg.timeout_per_provider_ms) ∧
      lookupStats (invoke cfg env stats i).stats p.name
          = some (statsAfter cfg.timeout_per_provider_ms inv s) ∧
      (statsAfter cfg.timeout_per_provider_ms inv s).failed_requests
          = s.failed_requests + 1 ∧
      (statsAfter cfg.timeout_per_provider_ms inv s).successful_requests
          = s.successful_requests) ∧
    (inv.timedOut = false →
      (invoke cfg env stats i).res = inv.result) := by
  have hres : (invoke cfg env stats i).res = invokeRes cfg.timeout_per_provider_ms inv := by
    rw [invoke_res]
    unfold invokeResAt
    rw [hp, he]
  constructor
  · intro ht
    have hr : invokeRes cfg.timeout_per_provider_ms inv
        = Except.error (SearchError.Timeout cfg.timeout_per_provider_ms) := by
      unfold invokeRes
      rw [ht]
      rfl
    refine ⟨by rw [hres, hr],
      invoke_stats_lookup_self cfg env stats i p inv s hp he hs, ?_⟩
    unfold statsAfter
    rw [hr]
    exact ⟨rfl, rfl⟩
  · intro ht
    rw [hres]
    unfold invokeRes
    rw [ht]
    rfl

/-- Claim C9, witness: the spec's scenario — provider "slow" would
eventually succeed, but the 50 ms deadline fires first; the call
returns `Timeout` carrying 50 and the failure is counted. -/
theorem claim_c9_witness :
    (lateInv (Except.ok [sampleResult "slow" "https://s/1"]) 60).timedOut = true ∧
    (invoke (mkCfg [{ name := "slow" }] MultiProviderStrategy.Failover 50)
        [lateInv (Except.ok [sampleResult "slow" "https://s/1"]) 60]
        (initStats [{ name := "slow" }]) 0).res
      = Except.error (SearchError.Timeout (mkCfg [{ name := "slow" }]
          MultiProviderStrategy.Failover 50).timeout_per_provider_ms) ∧
    (mkCfg [{ name := "slow" }]
        MultiProviderStrategy.Failover 50).timeout_per_provider_ms = 50 ∧
    (statsAfter (mkCfg [{ name := "slow" }]
          MultiProviderStrategy.Failover 50).timeout_per_provider_ms
        (lateInv (Except.ok [sampleResult "slow" "https://s/1"]) 60)
        ProviderStats.default).failed_requests
      = ProviderStats.default.failed_requests + 1 := by
  obtain ⟨h1, _⟩ := claim_c9_timeout
    (mkCfg [{ name := "slow" }] MultiProviderStrategy.Failover 50)
    [lateInv (Except.ok [sampleResult "slow" "https://s/1"]) 60]
    (initStats [{ name := "slow" }]) 0 { name := "slow" }
    (lateInv (Except.ok [sampleResult "slow" "https://s/1"]) 60) ProviderStats.default
    rfl rfl rfl
  obtain ⟨h2, h3, h4, h5⟩ := h1 rfl
  exact ⟨rfl, h2, rfl, h4⟩

/-! ### Claim C10 -/

/-- Claim C10 (confirmed): starting from a fresh orchestrator with a
non-empty provider list with distinct names, every LoadBalance call
increments exactly one provider's `total_requests` — so the sum of
`total_requests` grows by exactly one per call regardless of success,
failure or timeout — and `N` consecutive calls select provider indices
`0, 1, ..., (N - 1) mod count` in registration order. -/
theorem claim_c10_load_balance_distribution (cfg : MultiProviderConfig)
    (opts : SearchOptionsMulti) (envs : List (List Invocation))
    (h0 : 0 < cfg.providers.length)
    (hnames : (cfg.providers.map Provider.name).Nodup)
    (henv : ∀ env ∈ envs, cfg.providers.length ≤ env.length) :
    (loadBalanceRun cfg opts envs (initStats cfg.providers)).1
      = (List.range envs.length).map (fun k => [k % cfg.providers.length]) ∧
    sumTotalRequests (loadBalanceRun cfg opts envs (initStats cfg.providers)).2
      = envs.length := by
  obtain ⟨h1, h2⟩ := loadBalanceRun_spec cfg opts h0 envs (initStats cfg.providers) henv
    (fun p hp => lookupStats_initStats_isSome cfg.providers p hp)
  rw [sumTotalRequests_initStats] at h1 h2
  constructor
  · rw [h1]
    refine List.map_congr_left ?_
    intro k hk
    rw [Nat.zero_add]
  · rw [h2, Nat.zero_add]

/-- Claim C10, witness: two providers, three calls with mixed success
and failure; the selected indices cycle `0, 1, 0` regardless of the
failures, and three total requests are recorded. -/
theorem claim_c10_witness :
    (loadBalanceRun (mkCfg [{ name := "a" }, { name := "b" }]
          MultiProviderStrategy.LoadBalance 100)
        SearchOptionsMulti.default
        [[doneInv (Except.ok [sampleResult "a" "https://a/1"]) 1,
            doneInv (Except.ok [sampleResult "b" "https://b/1"]) 1],
          [doneInv (Except.error (SearchError.ProviderError "x")) 1,
            doneInv (Except.error (SearchError.ProviderError "y")) 1],
          [lateInv (Except.ok []) 60,
            doneInv (Except.ok [sampleResult "b" "https://b/2"]) 1]]
        (initStats (mkCfg [{ name := "a" }, { name := "b" }]
            MultiProviderStrategy.LoadBalance 100).providers)).1
      = [[0], [1], [0]] ∧
    sumTotalRequests (loadBalanceRun (mkCfg [{ name := "a" }, { name := "b" }]
          MultiProviderStrategy.LoadBalance 100)
        SearchOptionsMulti.default
        [[doneInv (Except.ok [sampleResult "a" "https://a/1"]) 1,
            doneInv (Except.ok [sampleResult "b" "https://b/1"]) 1],
          [doneInv (Except.error (SearchError.ProviderError "x")) 1,
            doneInv (Except.error (SearchError.ProviderError "y")) 1],
          [lateInv (Except.ok []) 60,
            doneInv (Except.ok [sampleResult "b" "https://b/2"]) 1]]
        (initStats (mkCfg [{ name := "a" }, { name := "b" }]
            MultiProviderStrategy.LoadBalance 100).providers)).2
      = 3 := by
  obtain ⟨h1, h2⟩ := claim_c10_load_balance_distribution
    (mkCfg [{ name := "a" }, { name := "b" }] MultiProviderStrategy.LoadBalance 100)
    SearchOptionsMulti.default
    [[doneInv (Except.ok [sampleResult "a" "https://a/1"]) 1,
        doneInv (Except.ok [sampleResult "b" "https://b/1"]) 1],
      [doneInv (Except.error (SearchError.ProviderError "x")) 1,
        doneInv (Except.error (SearchError.ProviderError "y")) 1],
      [lateInv (Except.ok []) 60,
        doneInv (Except.ok [sampleResult "b" "https://b/2"]) 1]]
    (by decide) (by decide) (by decide)
  constructor
  · rw [h1]
    decide
  · exact h2

end Websearch
